import Mathlib

/-!
# service-minio: lifecycle of the MinIO runtime agent

A shallow embedding of `main.go`, `runtime.go` and the endpoint creation of
`builder.go`: the service state, the credentials configuration builder, the
runtime transitions `Load`, `Init`, `WaitForReady`, `Start`, `Stop` and
`Destroy`, and the build-side `CreateEndpoints` and `Create`.

Conventions of the embedding.

* A Go pointer that may be nil is an `Option`; a Go slice is a `List`.
* A Go call returning `(value, error)` is a pair whose second component is
  `Option Err` (`none` is the nil error). The value is kept also when the error
  is set, because the source assigns it before testing the error.
* Functions of the `core`, `minio-go` and Docker libraries are not part of this
  repository. They are the fields of `Collaborators`; every definition below
  takes them as the argument `E`.
* What lies outside the process is the record `World`: the container engine,
  the trace of runner calls, and the count of liveness probes.
* Logging (`Wool`) has no effect on any value below and is left out.
-/

namespace ServiceMinio

/-! ## Data model -/

/-- The `resources.DockerImage` record. -/
structure DockerImage where
  Name : String
  Tag : String
deriving DecidableEq, Repr

/-- The declaration `var image` of `main.go:29`. -/
def image : DockerImage := { Name := "minio/minio", Tag := "latest" }

/-- Error values: those handed back by a collaborator, and the two ways this
repository builds one (`Wool.Wrapf`, `Wool.NewError`). -/
inductive Err where
  | external (msg : String)
  | wrapf (cause : Err) (msg : String)
  | newError (msg : String)
deriving DecidableEq, Repr

/-- The `basev0.ServiceIdentity` record (fields set in `main_test.go:44-50`). -/
structure ServiceIdentity where
  Name : String
  Module : String
  Workspace : String
  WorkspacePath : String
  RelativeToWorkspace : String
deriving DecidableEq, Repr

/-- The `basev0.Endpoint` record. -/
structure Endpoint where
  Module : String
  Service : String
  Name : String
  Api : String
deriving DecidableEq, Repr

/-- The `basev0.NetworkAccess` kinds built by `CallingContext`. -/
inductive NetworkAccess where
  | native
  | container
deriving DecidableEq, Repr

/-- The `basev0.NetworkInstance` record. `Port` is a 32-bit unsigned wire
field; `runtime.go:145` narrows it with `uint16(...)`. -/
structure NetworkInstance where
  Hostname : String
  Host : String
  Port : Nat
  Address : String
  Access : NetworkAccess
deriving DecidableEq, Repr

/-- The `basev0.NetworkMapping` record. -/
structure NetworkMapping where
  Endpoint : Option Endpoint
  Instances : List NetworkInstance
deriving DecidableEq, Repr

/-- The `basev0.RuntimeContext` record. -/
structure RuntimeContext where
  Kind : String
deriving DecidableEq, Repr

/-- The `basev0.ConfigurationValue` record. `Secret` is false when the
composite literal leaves it out. -/
structure ConfigurationValue where
  Key : String
  Value : String
  Secret : Bool := false
deriving DecidableEq, Repr

/-- The `basev0.ConfigurationInformation` record: one named group. -/
structure ConfigurationInformation where
  Name : String
  ConfigurationValues : List ConfigurationValue
deriving DecidableEq, Repr

/-- The `basev0.Configuration` record. -/
structure Configuration where
  Origin : String
  RuntimeContext : Option RuntimeContext
  Infos : List ConfigurationInformation
deriving DecidableEq, Repr

/-- The runner handle `runners.DockerEnvironment`, as the record of what it was
built from and configured with. -/
structure DockerEnvironment where
  image : DockerImage
  name : String
  command : List String
  portMappings : List (Nat × Nat)
  envs : List (String × String)
deriving DecidableEq, Repr

/-- The handle right after `runners.NewDockerHeadlessEnvironment(ctx, image, name)`. -/
def DockerEnvironment.fresh (img : DockerImage) (name : String) : DockerEnvironment :=
  { image := img, name := name, command := [], portMappings := [], envs := [] }

/-- The call `runner.WithCommand(...)`. -/
def DockerEnvironment.WithCommand (r : DockerEnvironment) (cmd : List String) : DockerEnvironment :=
  { r with command := cmd }

/-- The call `runner.WithPortMapping(ctx, external, internal)`; both arguments are `uint16`. -/
def DockerEnvironment.WithPortMapping (r : DockerEnvironment) (external internal : Nat) :
    DockerEnvironment :=
  { r with portMappings := r.portMappings ++ [(external, internal)] }

/-- The call `runner.WithEnvironmentVariables(ctx, envs...)`. -/
def DockerEnvironment.WithEnvironmentVariables (r : DockerEnvironment)
    (envs : List (String × String)) : DockerEnvironment :=
  { r with envs := r.envs ++ envs }

/-- The call `resources.Env(key, value)`. -/
def Env (key value : String) : String × String := (key, value)

/-- The Go conversion `uint16(x)` of an unsigned integer. -/
def uint16 (x : Nat) : Nat := x % 2 ^ 16

/-- The client returned by `minio.New(endpoint, &minio.Options{Creds: ...})`:
the target it contacts and the static credentials it signs with. -/
structure MinioClient where
  endpoint : String
  accessKey : String
  secretKey : String
deriving DecidableEq, Repr

/-- One call on the runner API. -/
inductive RunnerCall where
  | new (img : DockerImage) (name : String)
  | init (runner : DockerEnvironment)
  | shutdown (runner : DockerEnvironment)
deriving DecidableEq, Repr

/-- What lies outside the process. -/
structure World where
  /-- whether `/.dockerenv` exists (read by `CallingContext`) -/
  dockerenv : Bool
  /-- names of the backing runners that exist in the container engine -/
  runners : List String
  /-- runner API calls issued so far, oldest first -/
  calls : List RunnerCall
  /-- number of `ListBuckets` probes issued so far -/
  probes : Nat
deriving DecidableEq, Repr

/-- The embedded `*services.Base`, with the fields this repository reads or
writes. `Endpoints` is a slice of pointers (`[]*v0.Endpoint`), so an element may be
nil. `RuntimeConfigurations` is `Base.Runtime.RuntimeConfigurations`. -/
structure Base where
  Identity : Option ServiceIdentity
  Endpoints : List (Option Endpoint)
  NetworkMappings : List NetworkMapping
  Configuration : Option Configuration
  RuntimeConfigurations : List ServiceMinio.Configuration
deriving DecidableEq, Repr

/-- The `Service` struct of `main.go:31-41`. -/
structure Service extends Base where
  accessKey : String
  secretKey : String
  TcpEndpoint : Option Endpoint
deriving DecidableEq, Repr

/-- The `Runtime` struct of `runtime.go:23-33`. -/
structure Runtime extends Service where
  runnerEnvironment : Option DockerEnvironment
  minioPort : Nat
  hostReady : String
deriving DecidableEq, Repr

/-- The `basev0.TcpAPI` message loaded by `resources.LoadTCPAPI`. -/
structure TcpAPI where
  Name : String
deriving DecidableEq, Repr

/-- The `basev0.API` wrapper; `resources.ToTCPAPI(tcp)` is `API.tcp tcp`. -/
inductive API where
  | tcp (api : Option TcpAPI)
deriving DecidableEq, Repr

/-- The constant `standards.TCP`. -/
def standardsTCP : String := "tcp"

/-- The functions of other repositories that the source calls. -/
structure Collaborators where
  /-- the method `Base.Unique()` -/
  Unique : Option ServiceIdentity → String
  /-- the method `Base.UniqueWithWorkspace()` -/
  UniqueWithWorkspace : Option ServiceIdentity → String
  /-- the function `resources.RuntimeContextFromInstance` -/
  RuntimeContextFromInstance : NetworkInstance → Option RuntimeContext
  /-- the function `resources.GetConfigurationValue(ctx, conf, name, key)` -/
  GetConfigurationValue : Option Configuration → String → String → String × Option Err
  /-- the function `resources.FindNetworkMapping(ctx, mappings, endpoint)` -/
  FindNetworkMapping : List NetworkMapping → Option Endpoint → Option NetworkMapping × Option Err
  /-- the function `resources.FindNetworkInstanceInNetworkMappings(ctx, mappings, endpoint, access)` -/
  FindNetworkInstanceInNetworkMappings :
    List NetworkMapping → Option Endpoint → NetworkAccess → Option NetworkInstance × Option Err
  /-- the error of `runners.NewDockerHeadlessEnvironment(ctx, image, name)` -/
  NewDockerHeadlessEnvironment : DockerImage → String → Option Err
  /-- the method `DockerEnvironment.Init(ctx)`: its error and the runners that exist afterwards -/
  RunnerInit : DockerEnvironment → List String → Option Err × List String
  /-- the method `DockerEnvironment.Shutdown(ctx)`: its error and the runners that exist afterwards -/
  Shutdown : DockerEnvironment → List String → Option Err × List String
  /-- the error of `minio.New(endpoint, options)` for an endpoint and static credentials -/
  MinioNew : String → String → String → Option Err
  /-- the error of `minioClient.ListBuckets(ctx)` in a given world -/
  ListBuckets : MinioClient → World → Option Err
  /-- the method `Base.Load(ctx, identity, settings)` -/
  BaseLoad : Base → Option ServiceIdentity → Base × Option Err
  /-- the method `Base.Runtime.Service.LoadEndpoints(ctx)` -/
  LoadEndpoints : Base → List (Option Endpoint) × Option Err
  /-- the function `resources.FindTCPEndpoint(ctx, endpoints)` -/
  FindTCPEndpoint : List (Option Endpoint) → Option Endpoint × Option Err
  /-- the method `Base.Stop()` -/
  BaseStop : Base → Base × Option Err
  /-- the function `resources.LoadTCPAPI(ctx)` -/
  LoadTCPAPI : Option TcpAPI × Option Err
  /-- the method `Base.Service.BaseEndpoint(name)` -/
  BaseEndpoint : Base → String → Option Endpoint
  /-- the function `resources.NewAPI(ctx, endpoint, api)` -/
  NewAPI : Option Endpoint → API → Option Endpoint × Option Err
  /-- the error of `Communication.Done(ctx, channel)` -/
  CommunicationDone : Base → Option Err
  /-- the error of `Base.Templates(ctx, c, services.WithFactory(factoryFS))` -/
  Templates : Base → Option Err
  /-- the error of `Base.Builder.CreateResponse(ctx, settings)` -/
  CreateResponse : Base → Option Err

/-- What a transition returns: a success payload, an error response built by
`XxxError(err)`, or the zero values left after the deferred `Wool.Catch`
recovered a nil dereference. -/
inductive Response (α : Type) where
  | ok (payload : α)
  | error (err : Err)
  | recovered
deriving DecidableEq, Repr

/-- The success payload of a response, if it is one. -/
def Response.payload? {α : Type} : Response α → Option α
  | Response.ok p => some p
  | _ => none

/-- Whether the response is an error response. -/
def Response.isError {α : Type} : Response α → Bool
  | Response.error _ => true
  | _ => false

/-! ## main.go -/

/-- The constructor `NewService()` of `main.go:73-78`: every field is the zero value. -/
def NewService : Service :=
  { Identity := none, Endpoints := [], NetworkMappings := [], Configuration := none,
    RuntimeConfigurations := [], accessKey := "", secretKey := "", TcpEndpoint := none }

/-- The method `Service.LoadConfiguration` of `main.go:80-93`. Each key is assigned
before its error is tested. -/
def LoadConfiguration (E : Collaborators) (s : Service) (conf : Option Configuration) :
    Service × Option Err :=
  match E.GetConfigurationValue conf "minio" "MINIO_ACCESS_KEY" with
  | (v, some err) => ({ s with accessKey := v }, some (Err.wrapf err "cannot get access key"))
  | (v, none) =>
    let s1 : Service := { s with accessKey := v }
    match E.GetConfigurationValue conf "minio" "MINIO_SECRET_KEY" with
    | (v2, some err) => ({ s1 with secretKey := v2 }, some (Err.wrapf err "cannot get secret key"))
    | (v2, none) => ({ s1 with secretKey := v2 }, none)

/-- The method `Service.CreateCredentialsConfiguration` of `main.go:95-112`. -/
def CreateCredentialsConfiguration (E : Collaborators) (s : Service)
    (_conf : Option Configuration) (inst : NetworkInstance) : Configuration × Option Err :=
  let outputConf : Configuration :=
    { Origin := E.Unique s.Identity
      RuntimeContext := E.RuntimeContextFromInstance inst
      Infos := [
        { Name := "minio"
          ConfigurationValues := [
            { Key := "endpoint", Value := inst.Address },
            { Key := "access-key", Value := s.accessKey, Secret := true },
            { Key := "secret-key", Value := s.secretKey, Secret := true } ] } ] }
  (outputConf, none)

/-! ## runtime.go -/

/-- The constructor `NewRuntime()` of `runtime.go:35-39`. -/
def NewRuntime : Runtime :=
  { NewService with runnerEnvironment := none, minioPort := 0, hostReady := "" }

/-- The request of `Runtime.Load`. -/
structure LoadRequest where
  Identity : Option ServiceIdentity
deriving DecidableEq, Repr

/-- The request of `Runtime.Init`. -/
structure InitRequest where
  Configuration : Option Configuration
  ProposedNetworkMappings : List NetworkMapping
deriving DecidableEq, Repr

/-- The method `Runtime.Load` of `runtime.go:41-68`. -/
def Load (E : Collaborators) (s : Runtime) (req : LoadRequest) : Response Unit × Runtime :=
  match E.BaseLoad s.toBase req.Identity with
  | (b, some err) => (Response.error err, { s with toBase := b })
  | (b, none) =>
    let s1 : Runtime := { s with toBase := b }
    match E.LoadEndpoints s1.toBase with
    | (eps, some err) => (Response.error err, { s1 with Endpoints := eps })
    | (eps, none) =>
      let s2 : Runtime := { s1 with Endpoints := eps }
      match E.FindTCPEndpoint s2.Endpoints with
      | (tcp, some err) => (Response.error err, { s2 with TcpEndpoint := tcp })
      | (tcp, none) => (Response.ok (), { s2 with TcpEndpoint := tcp })

/-- The function `CallingContext` of `runtime.go:70-75`. -/
def CallingContext (w : World) : NetworkAccess :=
  if w.dockerenv then NetworkAccess.container else NetworkAccess.native

/-- The loop of `runtime.go:118-125`: one output configuration per instance of
the mapping, appended to `RuntimeConfigurations`. -/
def createConfigurations (E : Collaborators) (s : Runtime) :
    List NetworkInstance → Runtime × Option Err
  | [] => (s, none)
  | inst :: rest =>
    match CreateCredentialsConfiguration E s.toService s.Configuration inst with
    | (_, some errConn) => (s, some errConn)
    | (conf, none) =>
      createConfigurations E
        { s with RuntimeConfigurations := s.RuntimeConfigurations ++ [conf] } rest

/-- The method `Runtime.Init` of `runtime.go:77-163`. The payload of the success
response is the accumulated `RuntimeConfigurations`. The comment of `runtime.go:128-130`
speaks of a connection string for migrations; the statements under it resolve the
calling-context instance a second time and store its `Host` in `hostReady`, the target
of the ready check. -/
def Init (E : Collaborators) (s : Runtime) (req : InitRequest) (w : World) :
    Response (List Configuration) × Runtime × World :=
  let s0 : Runtime := { s with NetworkMappings := req.ProposedNetworkMappings }
  let s1 : Runtime := { s0 with Configuration := req.Configuration }
  match LoadConfiguration E s1.toService s1.Configuration with
  | (svc, some err) => (Response.error err, { s1 with toService := svc }, w)
  | (svc, none) =>
    let s2 : Runtime := { s1 with toService := svc }
    match E.FindNetworkMapping s2.NetworkMappings s2.TcpEndpoint with
    | (_, some err) => (Response.error err, s2, w)
    | (none, none) => (Response.error (Err.newError "network mapping is nil"), s2, w)
    | (some net, none) =>
      match E.FindNetworkInstanceInNetworkMappings s2.NetworkMappings s2.TcpEndpoint
          (CallingContext w) with
      | (_, some err) => (Response.error err, s2, w)
      | (none, none) => (Response.error (Err.newError "network instance is nil"), s2, w)
      | (some inst, none) =>
        let s3 : Runtime := { s2 with minioPort := 9000 }
        match createConfigurations E s3 net.Instances with
        | (s4, some errConn) => (Response.error errConn, s4, w)
        | (s4, none) =>
          match E.FindNetworkInstanceInNetworkMappings s4.NetworkMappings s4.TcpEndpoint
              (CallingContext w) with
          | (_, some err) => (Response.error err, s4, w)
          | (none, none) => (Response.recovered, s4, w)
          | (some hostInstance, none) =>
            let s5 : Runtime := { s4 with hostReady := hostInstance.Host }
            let name := E.UniqueWithWorkspace s5.Identity
            let w1 : World := { w with calls := w.calls ++ [RunnerCall.new image name] }
            match E.NewDockerHeadlessEnvironment image name with
            | some err => (Response.error err, s5, w1)
            | none =>
              let runner :=
                (((DockerEnvironment.fresh image name).WithCommand ["server", "/data"]).WithPortMapping
                  (uint16 inst.Port) s5.minioPort).WithEnvironmentVariables
                  [Env "MINIO_ACCESS_KEY" s5.accessKey, Env "MINIO_SECRET_KEY" s5.secretKey]
              let s6 : Runtime := { s5 with runnerEnvironment := some runner }
              let w2 : World := { w1 with calls := w1.calls ++ [RunnerCall.init runner] }
              match E.RunnerInit runner w2.runners with
              | (some err, rs) => (Response.error err, s6, { w2 with runners := rs })
              | (none, rs) => (Response.ok s6.RuntimeConfigurations, s6, { w2 with runners := rs })

/-- The constant `maxRetry` of `runtime.go:180`. -/
def maxRetry : Nat := 5

/-- The loop of `runtime.go:181-190`, by the number of iterations left
(`maxRetry - retry`). Each iteration issues one `ListBuckets` probe; the result
is `true` when an iteration returned nil from inside the loop. -/
def retryLoop (E : Collaborators) (client : MinioClient) : Nat → World → Bool × World
  | 0, w => (false, w)
  | n + 1, w =>
    match E.ListBuckets client w with
    | none => (true, { w with probes := w.probes + 1 })
    | some _ => retryLoop E client n { w with probes := w.probes + 1 }

/-- The method `Runtime.WaitForReady` of `runtime.go:165-192`. -/
def WaitForReady (E : Collaborators) (s : Runtime) (w : World) : Option Err × World :=
  match E.MinioNew s.hostReady s.accessKey s.secretKey with
  | some err => (some (Err.wrapf err "cannot create minio client"), w)
  | none =>
    let minioClient : MinioClient :=
      { endpoint := s.hostReady, accessKey := s.accessKey, secretKey := s.secretKey }
    match retryLoop E minioClient maxRetry w with
    | (true, w1) => (none, w1)
    | (false, w1) => (some (Err.newError "database is not ready"), w1)

/-- The method `Runtime.Start` of `runtime.go:194-209`. -/
def Start (E : Collaborators) (s : Runtime) (w : World) : Response Unit × Runtime × World :=
  match WaitForReady E s w with
  | (some err, w1) => (Response.error err, s, w1)
  | (none, w1) => (Response.ok (), s, w1)

/-- The method `Runtime.Stop` of `runtime.go:215-225`. -/
def Stop (E : Collaborators) (s : Runtime) (w : World) : Response Unit × Runtime × World :=
  match E.BaseStop s.toBase with
  | (b, some err) => (Response.error err, { s with toBase := b }, w)
  | (b, none) => (Response.ok (), { s with toBase := b }, w)

/-- The method `Runtime.Destroy` of `runtime.go:227-244`. -/
def Destroy (E : Collaborators) (s : Runtime) (w : World) : Response Unit × Runtime × World :=
  let name := E.UniqueWithWorkspace s.Identity
  let w1 : World := { w with calls := w.calls ++ [RunnerCall.new image name] }
  match E.NewDockerHeadlessEnvironment image name with
  | some err => (Response.error err, s, w1)
  | none =>
    let runner := DockerEnvironment.fresh image name
    let w2 : World := { w1 with calls := w1.calls ++ [RunnerCall.shutdown runner] }
    match E.Shutdown runner w2.runners with
    | (some err, rs) => (Response.error err, s, { w2 with runners := rs })
    | (none, rs) => (Response.ok (), s, { w2 with runners := rs })

/-! ## builder.go -/

/-- The `builderv0.CreationMode` message. -/
structure CreationMode where
  Communicate : Bool
deriving DecidableEq, Repr

/-- The `Builder` struct of `builder.go:20-22`, with the field
`Base.Builder.CreationMode` that `Create` reads. -/
structure Builder extends Service where
  CreationMode : Option CreationMode
deriving DecidableEq, Repr

/-- The constructor `NewBuilder()` of `builder.go:24-28`. -/
def NewBuilder : Builder := { NewService with CreationMode := none }

/-- The method `Builder.CreateEndpoints` of `builder.go:207-216`. The error of
`resources.NewAPI` is assigned to `err` and not tested before `return nil`. -/
def CreateEndpoints (E : Collaborators) (s : Builder) : Builder × Option Err :=
  match E.LoadTCPAPI with
  | (_, some err) => (s, some (Err.wrapf err "cannot load tcp api"))
  | (tcp, none) =>
    let endpoint := E.BaseEndpoint s.toBase standardsTCP
    let s1 : Builder := { s with TcpEndpoint := (E.NewAPI endpoint (API.tcp tcp)).1 }
    let s2 : Builder := { s1 with Endpoints := [s1.TcpEndpoint] }
    (s2, none)

/-- The method `Builder.Create` of `builder.go:178-205`. -/
def Create (E : Collaborators) (s : Builder) : Response Unit × Builder :=
  match s.CreationMode with
  | none => (Response.recovered, s)
  | some mode =>
    match (if mode.Communicate then E.CommunicationDone s.toBase else none) with
    | some err => (Response.error err, s)
    | none =>
      match E.Templates s.toBase with
      | some err => (Response.error err, s)
      | none =>
        match CreateEndpoints E s with
        | (s1, some err) => (Response.error (Err.wrapf err "cannot create endpoints"), s1)
        | (s1, none) =>
          match E.CreateResponse s1.toBase with
          | some err => (Response.error err, s1)
          | none => (Response.ok (), s1)

/-! ## Reference collaborators and test data

Concrete stand-ins for the collaborators, used to run the transitions on
explicit inputs. The general theorems below quantify over every `E`. -/

/-- Modelled from the spec: the configuration-value store of §6,
`GetSecret(configuration, group, key) -> string | MissingSecretError`
(the `core` function `resources.GetConfigurationValue`, not in this repository). -/
def refGetConfigurationValue (conf : Option Configuration) (name key : String) :
    String × Option Err :=
  match conf with
  | none => ("", some (Err.external "configuration is nil"))
  | some c =>
    match c.Infos.find? (fun info => info.Name == name) with
    | none => ("", some (Err.external "cannot find configuration value"))
    | some info =>
      match info.ConfigurationValues.find? (fun v => v.Key == key) with
      | none => ("", some (Err.external "cannot find configuration value"))
      | some v => (v.Value, none)

/-- Modelled from the spec: the network resolver of §6, mapping part
(the `core` function `resources.FindNetworkMapping`, not in this repository). -/
def refFindNetworkMapping (mappings : List NetworkMapping) (endpoint : Option Endpoint) :
    Option NetworkMapping × Option Err :=
  match endpoint with
  | none => (none, some (Err.external "endpoint is nil"))
  | some ep =>
    match mappings.find? (fun m => m.Endpoint == some ep) with
    | none => (none, some (Err.external "no network mapping for endpoint"))
    | some m => (some m, none)

/-- Modelled from the spec: the network resolver of §6,
`ResolveNetworkInstance(mappings, endpoint, callingContext) -> NetworkInstance | NotFound`
(the `core` function `resources.FindNetworkInstanceInNetworkMappings`, not in this repository). -/
def refFindNetworkInstance (mappings : List NetworkMapping) (endpoint : Option Endpoint)
    (access : NetworkAccess) : Option NetworkInstance × Option Err :=
  match refFindNetworkMapping mappings endpoint with
  | (some m, none) =>
    match m.Instances.find? (fun i => i.Access == access) with
    | none => (none, some (Err.external "no network instance for access"))
    | some i => (some i, none)
  | (_, e) => (none, e)

/-- Modelled from the spec: the external collaborators of §2 and §6 (functions of
the `core`, `minio-go` and Docker libraries, not in this repository). The runner
is keyed by its name; shutting down a runner that does not exist is a no-op. The
liveness probe answers once the runner exists. -/
def refE : Collaborators where
  Unique := fun id => match id with
    | none => ""
    | some i => i.Module ++ "/" ++ i.Name
  UniqueWithWorkspace := fun id => match id with
    | none => ""
    | some i => i.Workspace ++ "-" ++ i.Module ++ "-" ++ i.Name
  RuntimeContextFromInstance := fun i => match i.Access with
    | NetworkAccess.native => some { Kind := "native" }
    | NetworkAccess.container => some { Kind := "container" }
  GetConfigurationValue := refGetConfigurationValue
  FindNetworkMapping := refFindNetworkMapping
  FindNetworkInstanceInNetworkMappings := refFindNetworkInstance
  NewDockerHeadlessEnvironment := fun _ _ => none
  RunnerInit := fun r rs => (none, if r.name ∈ rs then rs else rs ++ [r.name])
  Shutdown := fun r rs => (none, rs.filter (fun n => n != r.name))
  MinioNew := fun host _ _ => if host = "" then some (Err.external "endpoint is empty") else none
  ListBuckets := fun _ w =>
    if w.runners = [] then some (Err.external "connection refused") else none
  BaseLoad := fun b id => match id with
    | none => (b, some (Err.external "identity is nil"))
    | some i => ({ b with Identity := some i }, none)
  LoadEndpoints := fun b => match b.Identity with
    | none => ([], some (Err.external "no identity"))
    | some i =>
      ([some { Module := i.Module, Service := i.Name, Name := "tcp", Api := "tcp" }], none)
  FindTCPEndpoint := fun eps =>
    match (eps.filterMap id).filter (fun e => e.Api == "tcp") with
    | [e] => (some e, none)
    | _ => (none, some (Err.external "expected exactly one tcp endpoint"))
  BaseStop := fun b => (b, none)
  LoadTCPAPI := (some { Name := "tcp" }, none)
  BaseEndpoint := fun b name => match b.Identity with
    | none => none
    | some i => some { Module := i.Module, Service := i.Name, Name := name, Api := "" }
  NewAPI := fun endpoint _ => match endpoint with
    | none => (none, some (Err.external "endpoint is nil"))
    | some ep => (some { ep with Api := "tcp" }, none)
  CommunicationDone := fun _ => none
  Templates := fun _ => none
  CreateResponse := fun _ => none

/-- The identity of `main_test.go:44-50`, with a fixed service name. -/
def testIdentity : ServiceIdentity :=
  { Name := "svc", Module := "mod", Workspace := "test", WorkspacePath := "/tmp",
    RelativeToWorkspace := "mod/svc" }

/-- The TCP endpoint of the test service. -/
def testEndpoint : Endpoint := { Module := "mod", Service := "svc", Name := "tcp", Api := "tcp" }

/-- A native instance at `localhost:42042`. `Host` is dialable like `Address`: the test
probes it in `Start` (`main_test.go:111-112`) on a temporary port. -/
def testInstance : NetworkInstance :=
  { Hostname := "localhost", Host := "localhost:42042", Port := 42042,
    Address := "localhost:42042", Access := NetworkAccess.native }

/-- The input configuration of `main_test.go:83-95`. -/
def testConf : Configuration :=
  { Origin := "mod/svc", RuntimeContext := some { Kind := "free" },
    Infos := [{ Name := "minio",
                ConfigurationValues := [{ Key := "MINIO_ACCESS_KEY", Value := "minio" },
                                        { Key := "MINIO_SECRET_KEY", Value := "password" }] }] }

/-- The Init request of `main_test.go:97-101`: one mapping with one native instance. -/
def testRequest : InitRequest :=
  { Configuration := some testConf,
    ProposedNetworkMappings := [{ Endpoint := some testEndpoint, Instances := [testInstance] }] }

/-- A world outside a container, with no runner and no call made. -/
def testWorld : World := { dockerenv := false, runners := [], calls := [], probes := 0 }

/-- The runtime after `Load` of the test identity. -/
def testLoaded : Runtime := (Load refE NewRuntime { Identity := some testIdentity }).2

/-- The runtime after `Load` and `Init` of the test request. -/
def testInitialised : Runtime := (Init refE testLoaded testRequest testWorld).2.1

/-- The world after `Load` and `Init` of the test request. -/
def testInitialisedWorld : World := (Init refE testLoaded testRequest testWorld).2.2

/-- The reference collaborators with a liveness probe that fails until `n` probes
have been issued and succeeds from then on. -/
def flakyE (n : Nat) : Collaborators :=
  { refE with
    ListBuckets := fun _ w =>
      if w.probes < n then some (Err.external "connection refused") else none }

/-- An Init request whose configuration holds the access key but no secret key. -/
def testRequestNoSecretKey : InitRequest :=
  { Configuration := some
      { Origin := "mod/svc", RuntimeContext := some { Kind := "free" },
        Infos := [{ Name := "minio",
                    ConfigurationValues := [{ Key := "MINIO_ACCESS_KEY", Value := "minio" }] }] },
    ProposedNetworkMappings := [{ Endpoint := some testEndpoint, Instances := [testInstance] }] }

/-- An Init request whose configuration has no group "minio". -/
def testRequestNoKeys : InitRequest :=
  { Configuration := some
      { Origin := "mod/svc", RuntimeContext := some { Kind := "free" }, Infos := [] },
    ProposedNetworkMappings := [{ Endpoint := some testEndpoint, Instances := [testInstance] }] }

/-- An Init request with both keys and no network mapping. -/
def testRequestNoMapping : InitRequest :=
  { Configuration := some testConf, ProposedNetworkMappings := [] }

/-- A native instance whose port field holds 74000, above the 16-bit range. -/
def testInstanceBigPort : NetworkInstance :=
  { Hostname := "localhost", Host := "localhost:74000", Port := 74000,
    Address := "localhost:74000", Access := NetworkAccess.native }

/-- An Init request that maps the TCP endpoint to `testInstanceBigPort`. -/
def testRequestBigPort : InitRequest :=
  { Configuration := some testConf,
    ProposedNetworkMappings :=
      [{ Endpoint := some testEndpoint, Instances := [testInstanceBigPort] }] }

/-- A runtime that knows its identity and nothing else, as after a process restart. -/
def testRestarted : Runtime := { NewRuntime with Identity := some testIdentity }

/-- The reference collaborators with a `resources.NewAPI` that reports an error
and returns no endpoint. -/
def failingNewAPIE : Collaborators :=
  { refE with NewAPI := fun _ _ => (none, some (Err.external "cannot create api")) }

/-- The builder after `Load` of the test identity in creation mode
(`main_test.go:53`): the identity is bound, no endpoint is loaded yet. -/
def testBuilder : Builder :=
  { NewBuilder with
    Identity := some testIdentity
    CreationMode := some { Communicate := false } }

/-- The reference collaborators with a runner whose `Shutdown` reports an error for
a runner that does not exist, as a container engine answers a stop request for an
unknown container. -/
def strictRunnerE : Collaborators :=
  { refE with
    Shutdown := fun r rs =>
      if r.name ∈ rs then (none, rs.filter (fun n => n != r.name))
      else (some (Err.external "No such container"), rs) }

/-- The reference collaborators with a service that answers the liveness probe
only at `localhost:42042`, the address of `testInstance`. -/
def addressOnlyE : Collaborators :=
  { refE with
    ListBuckets := fun c _ =>
      if c.endpoint = "localhost:42042" then none else some (Err.external "connection refused") }

end ServiceMinio

/-! ## Definitions used to state the results -/

namespace ServiceMinio

/-- The output configuration that `CreateCredentialsConfiguration` builds, by the
four values it reads. Used to state results about lists of configurations. -/
def outputConfiguration (E : Collaborators) (origin : String) (inst : NetworkInstance)
    (accessKey secretKey : String) : Configuration :=
  { Origin := origin
    RuntimeContext := E.RuntimeContextFromInstance inst
    Infos := [
      { Name := "minio"
        ConfigurationValues := [
          { Key := "endpoint", Value := inst.Address, Secret := false },
          { Key := "access-key", Value := accessKey, Secret := true },
          { Key := "secret-key", Value := secretKey, Secret := true } ] } ] }

/-- The state `Init` has reached when it is done with `LoadConfiguration`
(`runtime.go:85-89`): the two request fields and the keys are assigned. -/
def afterLoadConfiguration (E : Collaborators) (s : Runtime) (req : InitRequest) : Runtime :=
  { s with
    toService := (LoadConfiguration E
      { s.toService with
        NetworkMappings := req.ProposedNetworkMappings
        Configuration := req.Configuration } req.Configuration).1 }

/-- The error of the first lookup of `Init` that fails (`runtime.go:89-110`), in the order
the source performs them; `none` when credentials, mapping and instance all resolve. -/
def lookupError (E : Collaborators) (s : Runtime) (req : InitRequest) (w : World) : Option Err :=
  match E.GetConfigurationValue req.Configuration "minio" "MINIO_ACCESS_KEY" with
  | (_, some err) => some (Err.wrapf err "cannot get access key")
  | (_, none) =>
    match E.GetConfigurationValue req.Configuration "minio" "MINIO_SECRET_KEY" with
    | (_, some err) => some (Err.wrapf err "cannot get secret key")
    | (_, none) =>
      match E.FindNetworkMapping req.ProposedNetworkMappings s.TcpEndpoint with
      | (_, some err) => some err
      | (none, none) => some (Err.newError "network mapping is nil")
      | (some _, none) =>
        match E.FindNetworkInstanceInNetworkMappings req.ProposedNetworkMappings s.TcpEndpoint
            (CallingContext w) with
        | (_, some err) => some err
        | (none, none) => some (Err.newError "network instance is nil")
        | (some _, none) => none

/-- A credential lookup or a network lookup of `Init` fails for the request: the access
key or the secret key does not resolve, or there is no network mapping, or no network
instance, for the TCP endpoint under the calling context. -/
def LookupFails (E : Collaborators) (s : Runtime) (req : InitRequest) (w : World) : Prop :=
  (E.GetConfigurationValue req.Configuration "minio" "MINIO_ACCESS_KEY").2 ≠ none ∨
  (E.GetConfigurationValue req.Configuration "minio" "MINIO_SECRET_KEY").2 ≠ none ∨
  (E.FindNetworkMapping req.ProposedNetworkMappings s.TcpEndpoint).2 ≠ none ∨
  (E.FindNetworkMapping req.ProposedNetworkMappings s.TcpEndpoint).1 = none ∨
  (E.FindNetworkInstanceInNetworkMappings req.ProposedNetworkMappings s.TcpEndpoint
    (CallingContext w)).2 ≠ none ∨
  (E.FindNetworkInstanceInNetworkMappings req.ProposedNetworkMappings s.TcpEndpoint
    (CallingContext w)).1 = none

end ServiceMinio

/-! ## Shared lemmas -/

namespace ServiceMinio

theorem CreateCredentialsConfiguration_eq (E : Collaborators) (s : Service)
    (conf : Option Configuration) (inst : NetworkInstance) :
    CreateCredentialsConfiguration E s conf inst =
      (outputConfiguration E (E.Unique s.Identity) inst s.accessKey s.secretKey, none) := rfl

/-- The configuration loop never fails and appends one configuration per instance, in order. -/
theorem createConfigurations_eq (E : Collaborators) (l : List NetworkInstance) :
    ∀ s : Runtime, createConfigurations E s l =
      ({ s with RuntimeConfigurations := (s.RuntimeConfigurations ++
          l.map (fun i => outputConfiguration E (E.Unique s.Identity) i s.accessKey s.secretKey)) },
        none) := by
  induction l with
  | nil => intro s; simp [createConfigurations]
  | cons i rest ih =>
    intro s
    simp [createConfigurations, CreateCredentialsConfiguration_eq, ih, List.append_assoc]

theorem World.probes_add_zero (w : World) : { w with probes := w.probes + 0 } = w := by
  cases w; rfl

/-- The retry loop stops at the first probe that succeeds. -/
theorem retryLoop_success (E : Collaborators) (c : MinioClient) :
    ∀ (n k : Nat) (w : World), k < n →
      (∀ j, j < k → E.ListBuckets c { w with probes := w.probes + j } ≠ none) →
      E.ListBuckets c { w with probes := w.probes + k } = none →
      retryLoop E c n w = (true, { w with probes := w.probes + (k + 1) }) := by
  intro n
  induction n with
  | zero => intro k w hk; omega
  | succ n ih =>
    intro k w hk hfail hok
    cases k with
    | zero =>
      rw [World.probes_add_zero] at hok
      simp [retryLoop, hok]
    | succ k =>
      have h0 : E.ListBuckets c w ≠ none := by
        have := hfail 0 (Nat.succ_pos k)
        rwa [World.probes_add_zero] at this
      obtain ⟨e, he⟩ := Option.ne_none_iff_exists'.mp h0
      have hrec := ih k { w with probes := w.probes + 1 } (Nat.lt_of_succ_lt_succ hk)
        (by
          intro j hj
          have := hfail (j + 1) (Nat.succ_lt_succ hj)
          simpa [Nat.add_assoc, Nat.add_comm 1 j] using this)
        (by simpa [Nat.add_assoc, Nat.add_comm 1 k] using hok)
      simp only [retryLoop, he, hrec]
      simp only [Prod.mk.injEq, World.mk.injEq, true_and]
      omega

/-- The retry loop gives up after `n` failed probes. -/
theorem retryLoop_exhausted (E : Collaborators) (c : MinioClient) :
    ∀ (n : Nat) (w : World),
      (∀ j, j < n → E.ListBuckets c { w with probes := w.probes + j } ≠ none) →
      retryLoop E c n w = (false, { w with probes := w.probes + n }) := by
  intro n
  induction n with
  | zero => intro w _; simp [retryLoop, World.probes_add_zero]
  | succ n ih =>
    intro w hfail
    have h0 : E.ListBuckets c w ≠ none := by
      have := hfail 0 (Nat.succ_pos n)
      rwa [World.probes_add_zero] at this
    obtain ⟨e, he⟩ := Option.ne_none_iff_exists'.mp h0
    have hrec := ih { w with probes := w.probes + 1 }
      (by
        intro j hj
        have := hfail (j + 1) (Nat.succ_lt_succ hj)
        simpa [Nat.add_assoc, Nat.add_comm 1 j] using this)
    simp only [retryLoop, he, hrec]
    simp only [Prod.mk.injEq, World.mk.injEq, true_and]
    omega

/-- When a lookup fails, `Init` returns its error from the state reached after
`LoadConfiguration`, in an unchanged world. -/
theorem Init_of_lookupError (E : Collaborators) (s : Runtime) (req : InitRequest) (w : World)
    (e : Err) (h : lookupError E s req w = some e) :
    Init E s req w = (Response.error e, afterLoadConfiguration E s req, w) := by
  unfold lookupError at h
  unfold Init afterLoadConfiguration LoadConfiguration
  rcases ha : E.GetConfigurationValue req.Configuration "minio" "MINIO_ACCESS_KEY" with ⟨v, _ | ea⟩
  · rcases hs : E.GetConfigurationValue req.Configuration "minio" "MINIO_SECRET_KEY"
      with ⟨v2, _ | es⟩
    · rcases hn : E.FindNetworkMapping req.ProposedNetworkMappings s.TcpEndpoint
        with ⟨_ | net, _ | en⟩
      · simp only [ha, hs, hn] at h ⊢
        simp_all
      · simp only [ha, hs, hn] at h ⊢
        simp_all
      · rcases hi : E.FindNetworkInstanceInNetworkMappings req.ProposedNetworkMappings
          s.TcpEndpoint (CallingContext w) with ⟨_ | inst, _ | ei⟩
        · simp only [ha, hs, hn, hi] at h ⊢
          simp_all
        · simp only [ha, hs, hn, hi] at h ⊢
          simp_all
        · simp only [ha, hs, hn, hi] at h
          simp at h
        · simp only [ha, hs, hn, hi] at h ⊢
          simp_all
      · simp only [ha, hs, hn] at h ⊢
        simp_all
    · simp only [ha, hs] at h ⊢
      simp_all
  · simp only [ha] at h ⊢
    simp_all

/-- A failing lookup has an error for `Init` to report. -/
theorem lookupError_of_LookupFails (E : Collaborators) (s : Runtime) (req : InitRequest)
    (w : World) (h : LookupFails E s req w) : ∃ e, lookupError E s req w = some e := by
  unfold LookupFails at h
  unfold lookupError
  rcases ha : E.GetConfigurationValue req.Configuration "minio" "MINIO_ACCESS_KEY" with ⟨v, _ | ea⟩
  · rcases hs : E.GetConfigurationValue req.Configuration "minio" "MINIO_SECRET_KEY"
      with ⟨v2, _ | es⟩
    · rcases hn : E.FindNetworkMapping req.ProposedNetworkMappings s.TcpEndpoint
        with ⟨_ | net, _ | en⟩
      · simp
      · simp
      · rcases hi : E.FindNetworkInstanceInNetworkMappings req.ProposedNetworkMappings
          s.TcpEndpoint (CallingContext w) with ⟨_ | inst, _ | ei⟩
        · simp
        · simp
        · simp [ha, hs, hn, hi] at h
        · simp
      · simp
    · simp
  · simp

/-- `LoadConfiguration` writes the two keys only. -/
theorem LoadConfiguration_frame (E : Collaborators) (s : Service) (conf : Option Configuration) :
    (LoadConfiguration E s conf).1 =
      { s with
        accessKey := (LoadConfiguration E s conf).1.accessKey
        secretKey := (LoadConfiguration E s conf).1.secretKey } := by
  unfold LoadConfiguration
  rcases E.GetConfigurationValue conf "minio" "MINIO_ACCESS_KEY" with ⟨v, _ | ea⟩
  · rcases E.GetConfigurationValue conf "minio" "MINIO_SECRET_KEY" with ⟨v2, _ | es⟩ <;> rfl
  · rfl

/-- The retry loop only counts probes: the container engine is out of its reach. -/
theorem retryLoop_frame (E : Collaborators) (c : MinioClient) :
    ∀ (n : Nat) (w : World),
      (retryLoop E c n w).2.runners = w.runners ∧ (retryLoop E c n w).2.calls = w.calls ∧
      (retryLoop E c n w).2.dockerenv = w.dockerenv := by
  intro n
  induction n with
  | zero => intro w; simp [retryLoop]
  | succ n ih =>
    intro w
    unfold retryLoop
    cases E.ListBuckets c w with
    | none => simp
    | some e => simpa using ih { w with probes := w.probes + 1 }

/-- `Start` leaves the runtime state as it is and only counts probes in the world. -/
theorem Start_frame (E : Collaborators) (s : Runtime) (w : World) :
    (Start E s w).2.1 = s ∧ (Start E s w).2.2.runners = w.runners ∧
    (Start E s w).2.2.calls = w.calls := by
  unfold Start WaitForReady
  cases E.MinioNew s.hostReady s.accessKey s.secretKey with
  | some e => simp
  | none =>
    have h := retryLoop_frame E
      { endpoint := s.hostReady, accessKey := s.accessKey, secretKey := s.secretKey } maxRetry w
    rcases hr : retryLoop E
      { endpoint := s.hostReady, accessKey := s.accessKey, secretKey := s.secretKey } maxRetry w
      with ⟨b, w1⟩
    rw [hr] at h
    simp only [hr]
    cases b <;> exact ⟨rfl, h.1, h.2.1⟩

/-- `Stop` hands the embedded `Base` to `Base.Stop` and touches nothing else. -/
theorem Stop_frame (E : Collaborators) (s : Runtime) (w : World) :
    (Stop E s w).2.1 = { s with toBase := (E.BaseStop s.toBase).1 } ∧ (Stop E s w).2.2 = w := by
  unfold Stop
  rcases E.BaseStop s.toBase with ⟨b, _ | e⟩ <;> simp

/-- What `Init` has done once its lookups and the runner constructor succeeded: the
runner handle it configured, and the runner calls it issued. -/
theorem Init_runner (E : Collaborators) (s : Runtime) (req : InitRequest) (w : World)
    (a sk : String) (net : NetworkMapping) (inst : NetworkInstance)
    (ha : E.GetConfigurationValue req.Configuration "minio" "MINIO_ACCESS_KEY" = (a, none))
    (hs : E.GetConfigurationValue req.Configuration "minio" "MINIO_SECRET_KEY" = (sk, none))
    (hn : E.FindNetworkMapping req.ProposedNetworkMappings s.TcpEndpoint = (some net, none))
    (hi : E.FindNetworkInstanceInNetworkMappings req.ProposedNetworkMappings s.TcpEndpoint
      (CallingContext w) = (some inst, none))
    (hnew : E.NewDockerHeadlessEnvironment image (E.UniqueWithWorkspace s.Identity) = none) :
    (Init E s req w).2.1.runnerEnvironment = some
      { image := image, name := E.UniqueWithWorkspace s.Identity, command := ["server", "/data"],
        portMappings := [(inst.Port % 65536, 9000)],
        envs := [("MINIO_ACCESS_KEY", a), ("MINIO_SECRET_KEY", sk)] } ∧
    (Init E s req w).2.2.calls = w.calls ++
      [RunnerCall.new image (E.UniqueWithWorkspace s.Identity),
       RunnerCall.init
        { image := image, name := E.UniqueWithWorkspace s.Identity, command := ["server", "/data"],
          portMappings := [(inst.Port % 65536, 9000)],
          envs := [("MINIO_ACCESS_KEY", a), ("MINIO_SECRET_KEY", sk)] }] := by
  simp only [Init, LoadConfiguration, ha, hs, hn, hi, createConfigurations_eq, hnew]
  rcases E.RunnerInit
      ((((DockerEnvironment.fresh image (E.UniqueWithWorkspace s.Identity)).WithCommand
        ["server", "/data"]).WithPortMapping (uint16 inst.Port) 9000).WithEnvironmentVariables
        [Env "MINIO_ACCESS_KEY" a, Env "MINIO_SECRET_KEY" sk]) w.runners with ⟨_ | e, rs⟩ <;>
    simp [DockerEnvironment.fresh, DockerEnvironment.WithCommand,
      DockerEnvironment.WithPortMapping, DockerEnvironment.WithEnvironmentVariables, Env, uint16]

/-- When `CreateEndpoints` returns no error, `Endpoints` is the one-element list holding
`TcpEndpoint`, and `TcpEndpoint` is whatever `resources.NewAPI` returned as its value. -/
theorem CreateEndpoints_success_shape (E : Collaborators) (s s' : Builder)
    (h : CreateEndpoints E s = (s', none)) :
    s'.Endpoints = [s'.TcpEndpoint] ∧
    s'.TcpEndpoint =
      (E.NewAPI (E.BaseEndpoint s.toBase standardsTCP) (API.tcp E.LoadTCPAPI.1)).1 := by
  unfold CreateEndpoints at h
  rcases hl : E.LoadTCPAPI with ⟨tcp, _ | e⟩
  · simp only [hl, Prod.mk.injEq, and_true] at h
    subst h
    exact ⟨rfl, rfl⟩
  · simp [hl] at h

/-- The state a successful `Init` leaves behind: the probe target, the keys and the
accumulated configurations. -/
theorem Init_success_state (E : Collaborators) (s s' : Runtime) (req : InitRequest)
    (w w' : World) (payload : List Configuration) (a sk : String) (net : NetworkMapping)
    (inst : NetworkInstance)
    (hInit : Init E s req w = (Response.ok payload, s', w'))
    (ha : E.GetConfigurationValue req.Configuration "minio" "MINIO_ACCESS_KEY" = (a, none))
    (hs : E.GetConfigurationValue req.Configuration "minio" "MINIO_SECRET_KEY" = (sk, none))
    (hn : E.FindNetworkMapping req.ProposedNetworkMappings s.TcpEndpoint = (some net, none))
    (hi : E.FindNetworkInstanceInNetworkMappings req.ProposedNetworkMappings s.TcpEndpoint
      (CallingContext w) = (some inst, none)) :
    s'.hostReady = inst.Host ∧ s'.accessKey = a ∧ s'.secretKey = sk ∧
    s'.RuntimeConfigurations = s.RuntimeConfigurations ++
      net.Instances.map (fun i => outputConfiguration E (E.Unique s.Identity) i a sk) := by
  simp only [Init, LoadConfiguration, ha, hs, hn, hi, createConfigurations_eq] at hInit
  cases hnew : E.NewDockerHeadlessEnvironment image (E.UniqueWithWorkspace s.Identity) with
  | some e => simp [hnew] at hInit
  | none =>
    simp only [hnew] at hInit
    rcases hr : E.RunnerInit
        ((((DockerEnvironment.fresh image (E.UniqueWithWorkspace s.Identity)).WithCommand
          ["server", "/data"]).WithPortMapping (uint16 inst.Port) 9000).WithEnvironmentVariables
          [Env "MINIO_ACCESS_KEY" a, Env "MINIO_SECRET_KEY" sk]) w.runners with ⟨_ | e, rs⟩
    · simp only [hr, Prod.mk.injEq, Response.ok.injEq] at hInit
      obtain ⟨_, hs', _⟩ := hInit
      subst hs'
      exact ⟨rfl, rfl, rfl, rfl⟩
    · simp [hr] at hInit

/-- When the retry loop reports success, one of its probes was answered. -/
theorem retryLoop_true_probe (E : Collaborators) (c : MinioClient) :
    ∀ (n : Nat) (w w' : World), retryLoop E c n w = (true, w') →
      ∃ j, j < n ∧ E.ListBuckets c { w with probes := w.probes + j } = none := by
  intro n
  induction n with
  | zero => intro w w' h; simp [retryLoop] at h
  | succ n ih =>
    intro w w' h
    unfold retryLoop at h
    cases hl : E.ListBuckets c w with
    | none =>
      refine ⟨0, Nat.succ_pos n, ?_⟩
      rw [World.probes_add_zero]
      exact hl
    | some e =>
      simp only [hl] at h
      obtain ⟨j, hj, hp⟩ := ih _ w' h
      refine ⟨j + 1, Nat.succ_lt_succ hj, ?_⟩
      simpa [Nat.add_assoc, Nat.add_comm 1 j] using hp

/-- The payload of a successful `Init` is the accumulated list of configurations. -/
theorem Init_payload (E : Collaborators) (s s' : Runtime) (req : InitRequest) (w w' : World)
    (payload : List Configuration) (hInit : Init E s req w = (Response.ok payload, s', w')) :
    payload = s'.RuntimeConfigurations := by
  unfold Init at hInit
  simp only at hInit
  split at hInit
  · simp at hInit
  · split at hInit
    · simp at hInit
    · simp at hInit
    · split at hInit
      · simp at hInit
      · simp at hInit
      · split at hInit
        · simp at hInit
        · split at hInit
          · simp at hInit
          · simp at hInit
          · split at hInit
            · simp at hInit
            · split at hInit
              · simp at hInit
              · simp only [Prod.mk.injEq, Response.ok.injEq] at hInit
                obtain ⟨hp, hs', _⟩ := hInit
                rw [← hp, ← hs']

end ServiceMinio

/-! ## Claims -/

namespace ServiceMinio

/-- C1: for every service state, every `conf` argument and every network instance,
`CreateCredentialsConfiguration` returns no error and a configuration whose origin is
the service's unique id and whose `Infos` is exactly one group named "minio" with the
three values `endpoint` = `instance.Address` (not secret), `access-key` = the access key
(secret), `secret-key` = the secret key (secret), in this order; and two calls that agree
on origin, instance, access key and secret key return equal results whatever `conf` is. -/
theorem CreateCredentialsConfiguration_spec (E : Collaborators) :
    (∀ (s : Service) (conf : Option Configuration) (inst : NetworkInstance),
      CreateCredentialsConfiguration E s conf inst =
        ({ Origin := E.Unique s.Identity
           RuntimeContext := E.RuntimeContextFromInstance inst
           Infos := [
             { Name := "minio"
               ConfigurationValues := [
                 { Key := "endpoint", Value := inst.Address, Secret := false },
                 { Key := "access-key", Value := s.accessKey, Secret := true },
                 { Key := "secret-key", Value := s.secretKey, Secret := true } ] } ] },
         none)) ∧
    (∀ (s₁ s₂ : Service) (conf₁ conf₂ : Option Configuration) (inst : NetworkInstance),
      E.Unique s₁.Identity = E.Unique s₂.Identity →
      s₁.accessKey = s₂.accessKey → s₁.secretKey = s₂.secretKey →
      CreateCredentialsConfiguration E s₁ conf₁ inst =
        CreateCredentialsConfiguration E s₂ conf₂ inst) := by
  refine ⟨fun _ _ _ => rfl, ?_⟩
  intro s₁ s₂ conf₁ conf₂ inst ho ha hs
  simp [CreateCredentialsConfiguration, ho, ha, hs]

/-- Witness of C1: a loaded service and the same service after it accumulated a
configuration, called with different `conf` arguments, build the same configuration. -/
theorem CreateCredentialsConfiguration_spec_witness :
    CreateCredentialsConfiguration refE testLoaded.toService none testInstance =
      CreateCredentialsConfiguration refE
        { testLoaded.toService with RuntimeConfigurations := [testConf] } (some testConf)
        testInstance :=
  (CreateCredentialsConfiguration_spec refE).2 testLoaded.toService
    { testLoaded.toService with RuntimeConfigurations := [testConf] } none (some testConf)
    testInstance rfl rfl rfl

/-- C2: for every successful `Init` whose input configuration resolves
MINIO_ACCESS_KEY to `a` and MINIO_SECRET_KEY to `sk` in group "minio", and whose network
mapping for the TCP endpoint is `net`, the accumulated output configurations after `Init`
are those before it followed by exactly one configuration per instance of `net`, in
order, the j-th with endpoint = the j-th instance's address, access-key = `a` (secret)
and secret-key = `sk` (secret); the success payload is that accumulated list. -/
theorem Init_accumulates_per_instance (E : Collaborators) (s s' : Runtime) (req : InitRequest)
    (w w' : World) (payload : List Configuration) (a sk : String) (net : NetworkMapping)
    (hInit : Init E s req w = (Response.ok payload, s', w'))
    (ha : E.GetConfigurationValue req.Configuration "minio" "MINIO_ACCESS_KEY" = (a, none))
    (hs : E.GetConfigurationValue req.Configuration "minio" "MINIO_SECRET_KEY" = (sk, none))
    (hnet : E.FindNetworkMapping req.ProposedNetworkMappings s.TcpEndpoint = (some net, none)) :
    s'.RuntimeConfigurations = s.RuntimeConfigurations ++ net.Instances.map (fun i =>
        { Origin := E.Unique s.Identity
          RuntimeContext := E.RuntimeContextFromInstance i
          Infos := [
            { Name := "minio"
              ConfigurationValues := [
                { Key := "endpoint", Value := i.Address, Secret := false },
                { Key := "access-key", Value := a, Secret := true },
                { Key := "secret-key", Value := sk, Secret := true } ] } ] }) ∧
    s'.RuntimeConfigurations.length = s.RuntimeConfigurations.length + net.Instances.length ∧
    payload = s'.RuntimeConfigurations := by
  simp only [Init, LoadConfiguration, ha, hs, hnet, createConfigurations_eq] at hInit
  cases hi : E.FindNetworkInstanceInNetworkMappings req.ProposedNetworkMappings s.TcpEndpoint
      (CallingContext w) with
  | mk oi oe =>
    simp only [hi] at hInit
    cases oe with
    | some e => simp at hInit
    | none =>
      cases oi with
      | none => simp at hInit
      | some inst =>
        simp only at hInit
        cases hn : E.NewDockerHeadlessEnvironment image (E.UniqueWithWorkspace s.Identity) with
        | some e => simp [hn] at hInit
        | none =>
          simp only [hn] at hInit
          cases hr : E.RunnerInit
              ((((DockerEnvironment.fresh image (E.UniqueWithWorkspace s.Identity)).WithCommand
                ["server", "/data"]).WithPortMapping (uint16 inst.Port) 9000).WithEnvironmentVariables
                [Env "MINIO_ACCESS_KEY" a, Env "MINIO_SECRET_KEY" sk]) w.runners with
          | mk re rs =>
            simp only [hr] at hInit
            cases re with
            | some e => simp at hInit
            | none =>
              simp only [Prod.mk.injEq, Response.ok.injEq] at hInit
              obtain ⟨hp, hs', _⟩ := hInit
              subst hs'
              subst hp
              simp [outputConfiguration]


/-- Witness of C2: the scenario of `TestCreateToRun`. From a freshly loaded runtime and a
mapping with one native instance at `localhost:42042`, the payload of `Init` holds exactly
one output configuration, with endpoint = `localhost:42042`, access-key = `minio` (secret)
and secret-key = `password` (secret). -/
theorem Init_accumulates_per_instance_witness :
    testInitialised.RuntimeConfigurations = [] ++
      [{ Origin := "mod/svc"
         RuntimeContext := some { Kind := "native" }
         Infos := [
           { Name := "minio"
             ConfigurationValues := [
               { Key := "endpoint", Value := "localhost:42042", Secret := false },
               { Key := "access-key", Value := "minio", Secret := true },
               { Key := "secret-key", Value := "password", Secret := true } ] } ] }] ∧
    testInitialised.RuntimeConfigurations.length = 0 + 1 ∧
    (Init refE testLoaded testRequest testWorld).1.payload? =
      some testInitialised.RuntimeConfigurations :=
  have h := Init_accumulates_per_instance refE testLoaded testInitialised testRequest testWorld
    testInitialisedWorld testInitialised.RuntimeConfigurations "minio" "password"
    { Endpoint := some testEndpoint, Instances := [testInstance] } rfl rfl rfl rfl
  ⟨h.1, h.2.1, rfl⟩

/-- C3: once the probing client has been built, `Start` (through `WaitForReady`) issues
exactly min(k, 5) liveness probes, where k is the 1-based index of the first probe that
succeeds: if probe k ≤ 5 is the first to succeed, `Start` returns success after exactly k
probes (probe k+1 is not made); if the first 5 probes all fail, `Start` returns the error
"database is not ready" after exactly 5 probes. The j-th probe (0-based) is the one issued
in the world whose probe count is `w.probes + j`. -/
theorem Start_probe_budget (E : Collaborators) (s : Runtime) (w : World)
    (hclient : E.MinioNew s.hostReady s.accessKey s.secretKey = none) :
    (∀ k, 1 ≤ k → k ≤ 5 →
      (∀ j, j < k - 1 → E.ListBuckets
        { endpoint := s.hostReady, accessKey := s.accessKey, secretKey := s.secretKey }
        { w with probes := w.probes + j } ≠ none) →
      E.ListBuckets { endpoint := s.hostReady, accessKey := s.accessKey, secretKey := s.secretKey }
        { w with probes := w.probes + (k - 1) } = none →
      Start E s w = (Response.ok (), s, { w with probes := w.probes + k })) ∧
    ((∀ j, j < 5 → E.ListBuckets
        { endpoint := s.hostReady, accessKey := s.accessKey, secretKey := s.secretKey }
        { w with probes := w.probes + j } ≠ none) →
      Start E s w =
        (Response.error (Err.newError "database is not ready"), s,
          { w with probes := w.probes + 5 })) := by
  constructor
  · intro k hk1 hk5 hfail hok
    have h := retryLoop_success E _ maxRetry (k - 1) w (by simp only [maxRetry]; omega) hfail hok
    have hk : k - 1 + 1 = k := by omega
    rw [hk] at h
    simp [Start, WaitForReady, hclient, h]
  · intro hfail
    have h := retryLoop_exhausted E _ maxRetry w hfail
    simp only [maxRetry] at h
    simp [Start, WaitForReady, hclient, h, maxRetry]

/-- Witness of C3: with a probe that first succeeds at the third attempt `Start` succeeds
after 3 probes; with a probe that fails 7 times it reports the error after 5 probes. -/
theorem Start_probe_budget_witness :
    Start (flakyE 2) testInitialised testWorld =
      (Response.ok (), testInitialised, { testWorld with probes := 3 }) ∧
    Start (flakyE 7) testInitialised testWorld =
      (Response.error (Err.newError "database is not ready"), testInitialised,
        { testWorld with probes := 5 }) :=
  ⟨(Start_probe_budget (flakyE 2) testInitialised testWorld rfl).1 3 (by decide) (by decide)
      (by intro j hj; interval_cases j <;> decide) (by decide),
   (Start_probe_budget (flakyE 7) testInitialised testWorld rfl).2
      (by intro j hj; interval_cases j <;> decide)⟩


/-- C4: for every `Init` call in which credential resolution fails (MINIO_ACCESS_KEY or
MINIO_SECRET_KEY does not resolve in group "minio") or in which no network mapping or no
network instance exists for the TCP endpoint under the calling context, `Init` returns an
error response, the accumulated output configurations are unchanged, the runner handle is
unchanged, and the world is unchanged: no runner call (neither creation nor
initialisation) has been issued and the set of runners is the same. -/
theorem Init_lookup_failure_adds_nothing (E : Collaborators) (s : Runtime) (req : InitRequest)
    (w : World) (h : LookupFails E s req w) :
    (Init E s req w).1.isError = true ∧
    (Init E s req w).2.1.RuntimeConfigurations = s.RuntimeConfigurations ∧
    (Init E s req w).2.1.runnerEnvironment = s.runnerEnvironment ∧
    (Init E s req w).2.2.calls = w.calls ∧
    (Init E s req w).2.2 = w := by
  obtain ⟨e, he⟩ := lookupError_of_LookupFails E s req w h
  rw [Init_of_lookupError E s req w e he]
  refine ⟨rfl, ?_, rfl, rfl, rfl⟩
  simp only [afterLoadConfiguration]
  rw [LoadConfiguration_frame]

/-- Witness of C4: `Init` of a loaded runtime with both keys and no network mapping. -/
theorem Init_lookup_failure_adds_nothing_witness :
    (Init refE testLoaded testRequestNoMapping testWorld).1.isError = true ∧
    (Init refE testLoaded testRequestNoMapping testWorld).2.1.RuntimeConfigurations =
      testLoaded.RuntimeConfigurations ∧
    (Init refE testLoaded testRequestNoMapping testWorld).2.1.runnerEnvironment =
      testLoaded.runnerEnvironment ∧
    (Init refE testLoaded testRequestNoMapping testWorld).2.2.calls = testWorld.calls ∧
    (Init refE testLoaded testRequestNoMapping testWorld).2.2 = testWorld :=
  Init_lookup_failure_adds_nothing refE testLoaded testRequestNoMapping testWorld
    (Or.inr (Or.inr (Or.inl (by decide))))

/-- C5, as stated, fails: `Init` of a loaded runtime with a configuration that lacks the
secret key fails with "cannot get secret key", and the state after the call differs from
the state before it: `Configuration` and `NetworkMappings` hold the request's values and
`accessKey` holds the resolved access key. -/
theorem Init_failure_keeps_state_counterexample :
    LookupFails refE testLoaded testRequestNoSecretKey testWorld ∧
    (Init refE testLoaded testRequestNoSecretKey testWorld).1 =
      Response.error
        (Err.wrapf (Err.external "cannot find configuration value") "cannot get secret key") ∧
    testLoaded.accessKey = "" ∧
    (Init refE testLoaded testRequestNoSecretKey testWorld).2.1.accessKey = "minio" ∧
    testLoaded.Configuration = none ∧
    (Init refE testLoaded testRequestNoSecretKey testWorld).2.1.Configuration =
      testRequestNoSecretKey.Configuration ∧
    testLoaded.NetworkMappings = [] ∧
    (Init refE testLoaded testRequestNoSecretKey testWorld).2.1.NetworkMappings =
      testRequestNoSecretKey.ProposedNetworkMappings ∧
    (Init refE testLoaded testRequestNoSecretKey testWorld).2.1 ≠ testLoaded :=
  ⟨Or.inr (Or.inl (by decide)), by decide, by decide, by decide, by decide, by decide,
    by decide, by decide, by decide⟩

/-- C5, amended: for every `Init` call that fails at a credential or network lookup, the
state after the call is the state before it except for four fields: `NetworkMappings` and
`Configuration` hold the request's values (assigned before any lookup), `accessKey` holds
the value returned by its lookup, and `secretKey` holds the value returned by its lookup
when the access-key lookup succeeded and is unchanged otherwise. `minioPort`, `hostReady`,
the accumulated output configurations, the runner handle, the identity, the endpoints and
the TCP endpoint are unchanged. -/
theorem Init_lookup_failure_frame (E : Collaborators) (s : Runtime) (req : InitRequest)
    (w : World) (h : LookupFails E s req w) :
    (Init E s req w).2.1 =
      { s with
        NetworkMappings := req.ProposedNetworkMappings
        Configuration := req.Configuration
        accessKey := (Init E s req w).2.1.accessKey
        secretKey := (Init E s req w).2.1.secretKey } ∧
    (Init E s req w).2.1.accessKey =
      (E.GetConfigurationValue req.Configuration "minio" "MINIO_ACCESS_KEY").1 ∧
    ((E.GetConfigurationValue req.Configuration "minio" "MINIO_ACCESS_KEY").2 = none →
      (Init E s req w).2.1.secretKey =
        (E.GetConfigurationValue req.Configuration "minio" "MINIO_SECRET_KEY").1) ∧
    ((E.GetConfigurationValue req.Configuration "minio" "MINIO_ACCESS_KEY").2 ≠ none →
      (Init E s req w).2.1.secretKey = s.secretKey) := by
  obtain ⟨e, he⟩ := lookupError_of_LookupFails E s req w h
  rw [Init_of_lookupError E s req w e he]
  simp only [afterLoadConfiguration]
  refine ⟨?_, ?_, ?_, ?_⟩
  · conv_lhs => rw [LoadConfiguration_frame]
  · unfold LoadConfiguration
    rcases E.GetConfigurationValue req.Configuration "minio" "MINIO_ACCESS_KEY" with ⟨v, _ | ea⟩
    · rcases E.GetConfigurationValue req.Configuration "minio" "MINIO_SECRET_KEY"
        with ⟨v2, _ | es⟩ <;> rfl
    · rfl
  · unfold LoadConfiguration
    rcases E.GetConfigurationValue req.Configuration "minio" "MINIO_ACCESS_KEY" with ⟨v, _ | ea⟩
    · rcases E.GetConfigurationValue req.Configuration "minio" "MINIO_SECRET_KEY"
        with ⟨v2, _ | es⟩ <;> intro _ <;> rfl
    · intro hc; simp at hc
  · unfold LoadConfiguration
    rcases E.GetConfigurationValue req.Configuration "minio" "MINIO_ACCESS_KEY" with ⟨v, _ | ea⟩
    · intro hc; simp at hc
    · intro _; rfl

/-- Witness of C5, amended: the request without a secret key on a loaded runtime. -/
theorem Init_lookup_failure_frame_witness :
    (Init refE testLoaded testRequestNoSecretKey testWorld).2.1 =
      { testLoaded with
        NetworkMappings := testRequestNoSecretKey.ProposedNetworkMappings
        Configuration := testRequestNoSecretKey.Configuration
        accessKey := "minio"
        secretKey := "" } :=
  (Init_lookup_failure_frame refE testLoaded testRequestNoSecretKey testWorld
    (Or.inr (Or.inl (by decide)))).1


/-- C6, as stated, fails: `Init` on the runtime built by `NewRuntime`, on which `Load` never
ran, with a configuration that has no group "minio", returns the error of the access-key
lookup, "cannot get access key": the same response a loaded runtime gives to that request,
and not an error about the order of the calls. -/
theorem Init_before_Load_counterexample :
    NewRuntime.TcpEndpoint = none ∧
    (Init refE NewRuntime testRequestNoKeys testWorld).1 =
      Response.error
        (Err.wrapf (Err.external "cannot find configuration value") "cannot get access key") ∧
    (Init refE NewRuntime testRequestNoKeys testWorld).1 =
      (Init refE testLoaded testRequestNoKeys testWorld).1 :=
  ⟨rfl, by decide, by decide⟩

/-- C6, amended: `Init` makes no check of the Load state. On a runtime on which `Load` has
not succeeded (its TCP endpoint is unset) it runs its lookups with the unset endpoint;
whenever credential resolution fails, or the resolver finds no mapping or no instance for
the unset endpoint, `Init` returns an error response carrying the error of the first lookup
that failed, and no runner is created or initialised and no output configuration is
accumulated. -/
theorem Init_before_Load (E : Collaborators) (s : Runtime) (req : InitRequest) (w : World)
    (hs : s.TcpEndpoint = none)
    (h : (E.GetConfigurationValue req.Configuration "minio" "MINIO_ACCESS_KEY").2 ≠ none ∨
      (E.GetConfigurationValue req.Configuration "minio" "MINIO_SECRET_KEY").2 ≠ none ∨
      (E.FindNetworkMapping req.ProposedNetworkMappings none).2 ≠ none ∨
      (E.FindNetworkMapping req.ProposedNetworkMappings none).1 = none ∨
      (E.FindNetworkInstanceInNetworkMappings req.ProposedNetworkMappings none
        (CallingContext w)).2 ≠ none ∨
      (E.FindNetworkInstanceInNetworkMappings req.ProposedNetworkMappings none
        (CallingContext w)).1 = none) :
    ∃ e, (Init E s req w).1 = Response.error e ∧ lookupError E s req w = some e ∧
      (Init E s req w).2.1.RuntimeConfigurations = s.RuntimeConfigurations ∧
      (Init E s req w).2.1.runnerEnvironment = s.runnerEnvironment ∧
      (Init E s req w).2.2 = w := by
  have hf : LookupFails E s req w := by
    unfold LookupFails
    rw [hs]
    exact h
  obtain ⟨e, he⟩ := lookupError_of_LookupFails E s req w hf
  rw [Init_of_lookupError E s req w e he]
  refine ⟨e, rfl, he, ?_, rfl, rfl⟩
  simp only [afterLoadConfiguration]
  rw [LoadConfiguration_frame]

/-- Witness of C6, amended: the test request on the runtime built by `NewRuntime`; the
reference resolver rejects the unset endpoint. -/
theorem Init_before_Load_witness :
    ∃ e, (Init refE NewRuntime testRequest testWorld).1 = Response.error e ∧
      lookupError refE NewRuntime testRequest testWorld = some e ∧
      (Init refE NewRuntime testRequest testWorld).2.1.RuntimeConfigurations =
        NewRuntime.RuntimeConfigurations ∧
      (Init refE NewRuntime testRequest testWorld).2.1.runnerEnvironment =
        NewRuntime.runnerEnvironment ∧
      (Init refE NewRuntime testRequest testWorld).2.2 = testWorld :=
  Init_before_Load refE NewRuntime testRequest testWorld rfl
    (Or.inr (Or.inr (Or.inl (by decide))))

/-- C7: for every runtime state and world, `Start` and `Stop` neither create nor delete the
backing runner: the runner handle held by the runtime, the set of existing runners and the
trace of runner calls are the same after `Start` or `Stop` as before, whether the call
succeeds or fails; and the same holds for `Stop` followed by `Start`. -/
theorem Start_Stop_keep_runner (E : Collaborators) (s : Runtime) (w : World) :
    ((Start E s w).2.1.runnerEnvironment = s.runnerEnvironment ∧
      (Start E s w).2.2.runners = w.runners ∧ (Start E s w).2.2.calls = w.calls) ∧
    ((Stop E s w).2.1.runnerEnvironment = s.runnerEnvironment ∧
      (Stop E s w).2.2.runners = w.runners ∧ (Stop E s w).2.2.calls = w.calls) ∧
    ((Start E (Stop E s w).2.1 (Stop E s w).2.2).2.1.runnerEnvironment = s.runnerEnvironment ∧
      (Start E (Stop E s w).2.1 (Stop E s w).2.2).2.2.runners = w.runners ∧
      (Start E (Stop E s w).2.1 (Stop E s w).2.2).2.2.calls = w.calls) := by
  have hstop := Stop_frame E s w
  have hstart := Start_frame E s w
  have hboth := Start_frame E (Stop E s w).2.1 (Stop E s w).2.2
  refine ⟨⟨?_, hstart.2.1, hstart.2.2⟩, ⟨?_, ?_, ?_⟩, ⟨?_, ?_, ?_⟩⟩
  · rw [hstart.1]
  · rw [hstop.1]
  · rw [hstop.2]
  · rw [hstop.2]
  · rw [hboth.1, hstop.1]
  · rw [hboth.2.1, hstop.2]
  · rw [hboth.2.2, hstop.2]

/-- C8: `Destroy` locates the runner through the image `minio/minio:latest` and the
service's identity string only. For every two runtime states that agree on the service
identity, whatever their cached runner handle, credentials, `hostReady` or accumulated
configurations, `Destroy` in the same world returns the same response and leaves the same
world: it issues the same runner calls, on the handle freshly built from the image and
the identity string, and the same runners remain. -/
theorem Destroy_by_image_and_identity (E : Collaborators) (s₁ s₂ : Runtime) (w : World)
    (h : s₁.Identity = s₂.Identity) :
    image = { Name := "minio/minio", Tag := "latest" } ∧
    (Destroy E s₁ w).1 = (Destroy E s₂ w).1 ∧
    (Destroy E s₁ w).2.2 = (Destroy E s₂ w).2.2 ∧
    (Destroy E s₁ w).2.2.calls = w.calls ++
      (RunnerCall.new image (E.UniqueWithWorkspace s₂.Identity) ::
        if E.NewDockerHeadlessEnvironment image (E.UniqueWithWorkspace s₂.Identity) = none then
          [RunnerCall.shutdown
            (DockerEnvironment.fresh image (E.UniqueWithWorkspace s₂.Identity))]
        else []) := by
  refine ⟨rfl, ?_⟩
  rcases hN : E.NewDockerHeadlessEnvironment image (E.UniqueWithWorkspace s₂.Identity)
    with _ | e
  · rcases hS : E.Shutdown (DockerEnvironment.fresh image (E.UniqueWithWorkspace s₂.Identity))
      w.runners with ⟨_ | e, rs⟩ <;> simp [Destroy, h, hN, hS]
  · simp [Destroy, h, hN]

/-- Witness of C8: the initialised runtime and a runtime that only knows its identity
destroy the same runner. -/
theorem Destroy_by_image_and_identity_witness :
    (Destroy refE testInitialised testInitialisedWorld).1 =
      (Destroy refE testRestarted testInitialisedWorld).1 ∧
    (Destroy refE testInitialised testInitialisedWorld).2.2 =
      (Destroy refE testRestarted testInitialisedWorld).2.2 :=
  have h := Destroy_by_image_and_identity refE testInitialised testRestarted
    testInitialisedWorld rfl
  ⟨h.2.1, h.2.2.1⟩


/-- C9, as stated, fails: with a runner whose `Shutdown` reports "No such container" for a
runner that does not exist, `Destroy` on a runtime that was never initialised, in a world
without runners, returns an error response; and after a first `Destroy` of the initialised
runtime has succeeded, a second `Destroy` returns that error. -/
theorem Destroy_absent_runner_counterexample :
    testRestarted.runnerEnvironment = none ∧ testWorld.runners = [] ∧
    (Destroy strictRunnerE testRestarted testWorld).1 =
      Response.error (Err.external "No such container") ∧
    (Destroy strictRunnerE testInitialised testInitialisedWorld).1 = Response.ok () ∧
    (Destroy strictRunnerE (Destroy strictRunnerE testInitialised testInitialisedWorld).2.1
      (Destroy strictRunnerE testInitialised testInitialisedWorld).2.2).1 =
      Response.error (Err.external "No such container") :=
  ⟨by decide, by decide, by decide, by decide, by decide⟩

/-- C9, amended: `Destroy` has no handling of a runner that does not exist. For every
runtime state, a nil cached handle included, it builds the handle from the image and the
identity string and returns a success response exactly when the runner constructor and the
`Shutdown` of that handle both report no error; an error of either, one reported for a
runner that does not exist included, is returned as the error response. The runtime state
is left as it is. -/
theorem Destroy_succeeds_iff_runner_does (E : Collaborators) (s : Runtime) (w : World) :
    ((Destroy E s w).1 = Response.ok () ↔
      (E.NewDockerHeadlessEnvironment image (E.UniqueWithWorkspace s.Identity) = none ∧
       (E.Shutdown (DockerEnvironment.fresh image (E.UniqueWithWorkspace s.Identity))
          w.runners).1 = none)) ∧
    (∀ e, E.NewDockerHeadlessEnvironment image (E.UniqueWithWorkspace s.Identity) = some e →
      (Destroy E s w).1 = Response.error e) ∧
    (∀ e, E.NewDockerHeadlessEnvironment image (E.UniqueWithWorkspace s.Identity) = none →
      (E.Shutdown (DockerEnvironment.fresh image (E.UniqueWithWorkspace s.Identity))
        w.runners).1 = some e →
      (Destroy E s w).1 = Response.error e) ∧
    (Destroy E s w).2.1 = s := by
  rcases hN : E.NewDockerHeadlessEnvironment image (E.UniqueWithWorkspace s.Identity)
    with _ | e
  · rcases hS : E.Shutdown (DockerEnvironment.fresh image (E.UniqueWithWorkspace s.Identity))
      w.runners with ⟨_ | e, rs⟩ <;> simp [Destroy, hN, hS]
  · simp [Destroy, hN]

/-- Witness of C9, amended: with the reference runner, whose constructor and `Shutdown`
report no error, `Destroy` on a runtime that was never initialised succeeds; with the strict
runner it returns the error of `Shutdown`. -/
theorem Destroy_succeeds_iff_runner_does_witness :
    (Destroy refE testRestarted testWorld).1 = Response.ok () ∧
    (Destroy strictRunnerE testRestarted testWorld).1 =
      Response.error (Err.external "No such container") :=
  ⟨(Destroy_succeeds_iff_runner_does refE testRestarted testWorld).1.mpr ⟨rfl, rfl⟩,
   (Destroy_succeeds_iff_runner_does strictRunnerE testRestarted testWorld).2.2.1
      (Err.external "No such container") rfl rfl⟩

/-- C10, as stated, fails: for the instance resolved for the TCP endpoint whose port field
holds 74000, the runner that `Init` configures maps external port 8464, not 74000, to the
internal port 9000. -/
theorem Init_port_mapping_counterexample :
    refE.FindNetworkInstanceInNetworkMappings testRequestBigPort.ProposedNetworkMappings
      testLoaded.TcpEndpoint (CallingContext testWorld) = (some testInstanceBigPort, none) ∧
    testInstanceBigPort.Port = 74000 ∧
    (Init refE testLoaded testRequestBigPort testWorld).1.isError = false ∧
    (Init refE testLoaded testRequestBigPort testWorld).2.1.runnerEnvironment.map
      (fun r => r.portMappings) = some [(8464, 9000)] :=
  ⟨by decide, by decide, by decide, by decide⟩

/-- C10, amended: for every network instance resolved for the TCP endpoint under the
calling context, once the lookups of `Init` and the runner constructor have succeeded, the
runner that `Init` stores and initialises has exactly one port mapping, from external port
`instance.Port mod 65536` (the conversion `uint16(instance.Port)`) to the internal port
9000; the external port equals the instance's port exactly when that port is below 65536. -/
theorem Init_port_mapping (E : Collaborators) (s : Runtime) (req : InitRequest) (w : World)
    (a sk : String) (net : NetworkMapping) (inst : NetworkInstance)
    (ha : E.GetConfigurationValue req.Configuration "minio" "MINIO_ACCESS_KEY" = (a, none))
    (hs : E.GetConfigurationValue req.Configuration "minio" "MINIO_SECRET_KEY" = (sk, none))
    (hn : E.FindNetworkMapping req.ProposedNetworkMappings s.TcpEndpoint = (some net, none))
    (hi : E.FindNetworkInstanceInNetworkMappings req.ProposedNetworkMappings s.TcpEndpoint
      (CallingContext w) = (some inst, none))
    (hnew : E.NewDockerHeadlessEnvironment image (E.UniqueWithWorkspace s.Identity) = none) :
    ∃ r : DockerEnvironment,
      (Init E s req w).2.1.runnerEnvironment = some r ∧
      RunnerCall.init r ∈ (Init E s req w).2.2.calls ∧
      r.portMappings = [(inst.Port % 65536, 9000)] ∧
      (inst.Port < 65536 → r.portMappings = [(inst.Port, 9000)]) := by
  obtain ⟨hr, hc⟩ := Init_runner E s req w a sk net inst ha hs hn hi hnew
  refine ⟨_, hr, ?_, rfl, ?_⟩
  · rw [hc]; simp
  · intro hlt
    simp [Nat.mod_eq_of_lt hlt]

/-- Witness of C10, amended: the test request, whose instance listens on port 42042. -/
theorem Init_port_mapping_witness :
    ∃ r : DockerEnvironment,
      (Init refE testLoaded testRequest testWorld).2.1.runnerEnvironment = some r ∧
      RunnerCall.init r ∈ (Init refE testLoaded testRequest testWorld).2.2.calls ∧
      r.portMappings = [(42042 % 65536, 9000)] ∧
      (42042 < 65536 → r.portMappings = [(42042, 9000)]) :=
  Init_port_mapping refE testLoaded testRequest testWorld "minio" "password"
    { Endpoint := some testEndpoint, Instances := [testInstance] } testInstance rfl rfl rfl rfl rfl

/-- C11 fails on the code: with a `resources.NewAPI` that reports an error and returns no
endpoint, `CreateEndpoints` still returns the nil error, `TcpEndpoint` is nil, `Endpoints`
is the one-element list holding that nil endpoint, and `Create` returns success. -/
theorem CreateEndpoints_drops_NewAPI_error :
    failingNewAPIE.NewAPI (failingNewAPIE.BaseEndpoint testBuilder.toBase standardsTCP)
      (API.tcp failingNewAPIE.LoadTCPAPI.1) = (none, some (Err.external "cannot create api")) ∧
    (CreateEndpoints failingNewAPIE testBuilder).2 = none ∧
    (CreateEndpoints failingNewAPIE testBuilder).1.TcpEndpoint = none ∧
    (CreateEndpoints failingNewAPIE testBuilder).1.Endpoints = [none] ∧
    (Create failingNewAPIE testBuilder).1 = Response.ok () ∧
    (Create failingNewAPIE testBuilder).2.Endpoints = [none] :=
  ⟨by decide, by decide, by decide, by decide, by decide, by decide⟩

/-- C12: after every successful `Init`, for the network instance resolved for the calling
context, whose `Host` is its `Address` (host and port, as the instances this service is
given: `Start` probes `Host` and callers dial `Address`, `main_test.go:111-128`): the client
of the readiness prober is built for exactly the address published as `endpoint` in the
output configuration of that instance, with that configuration's access-key and
secret-key; and a `Start` that returns success has had one of its at most 5 probes
answered by that client, at that address with those credentials. -/
theorem Start_probes_published_endpoint (E : Collaborators) (s s' : Runtime)
    (req : InitRequest) (w w' : World) (payload : List Configuration) (a sk : String)
    (net : NetworkMapping) (inst : NetworkInstance)
    (hInit : Init E s req w = (Response.ok payload, s', w'))
    (ha : E.GetConfigurationValue req.Configuration "minio" "MINIO_ACCESS_KEY" = (a, none))
    (hs : E.GetConfigurationValue req.Configuration "minio" "MINIO_SECRET_KEY" = (sk, none))
    (hn : E.FindNetworkMapping req.ProposedNetworkMappings s.TcpEndpoint = (some net, none))
    (hi : E.FindNetworkInstanceInNetworkMappings req.ProposedNetworkMappings s.TcpEndpoint
      (CallingContext w) = (some inst, none))
    (hhost : inst.Host = inst.Address) :
    (inst ∈ net.Instances →
      ({ Origin := E.Unique s.Identity
         RuntimeContext := E.RuntimeContextFromInstance inst
         Infos := [
           { Name := "minio"
             ConfigurationValues := [
               { Key := "endpoint", Value := inst.Address, Secret := false },
               { Key := "access-key", Value := a, Secret := true },
               { Key := "secret-key", Value := sk, Secret := true } ] } ] } : Configuration) ∈
        payload) ∧
    (s'.hostReady = inst.Address ∧ s'.accessKey = a ∧ s'.secretKey = sk) ∧
    (∀ w1 : World, WaitForReady E s' w1 =
      match E.MinioNew inst.Address a sk with
      | some err => (some (Err.wrapf err "cannot create minio client"), w1)
      | none =>
        match retryLoop E { endpoint := inst.Address, accessKey := a, secretKey := sk }
            maxRetry w1 with
        | (true, w2) => (none, w2)
        | (false, w2) => (some (Err.newError "database is not ready"), w2)) ∧
    (∀ w1 : World, (Start E s' w1).1 = Response.ok () →
      ∃ j, j < 5 ∧
        E.ListBuckets { endpoint := inst.Address, accessKey := a, secretKey := sk }
          { w1 with probes := w1.probes + j } = none) := by
  obtain ⟨hh, hak, hsk, hrc⟩ := Init_success_state E s s' req w w' payload a sk net inst
    hInit ha hs hn hi
  have hpay : payload = s'.RuntimeConfigurations :=
    (Init_payload E s s' req w w' payload hInit)
  rw [hhost] at hh
  have hwait : ∀ w1 : World, WaitForReady E s' w1 =
      match E.MinioNew inst.Address a sk with
      | some err => (some (Err.wrapf err "cannot create minio client"), w1)
      | none =>
        match retryLoop E { endpoint := inst.Address, accessKey := a, secretKey := sk }
            maxRetry w1 with
        | (true, w2) => (none, w2)
        | (false, w2) => (some (Err.newError "database is not ready"), w2) := by
    intro w1
    simp only [WaitForReady, hh, hak, hsk]
  refine ⟨?_, ⟨hh, hak, hsk⟩, hwait, ?_⟩
  · intro hmem
    rw [hpay, hrc]
    exact List.mem_append_right _ (List.mem_map.mpr ⟨inst, hmem, rfl⟩)
  · intro w1 hok
    unfold Start at hok
    rw [hwait w1] at hok
    cases hm : E.MinioNew inst.Address a sk with
    | some e => simp [hm] at hok
    | none =>
      simp only [hm] at hok
      rcases hr : retryLoop E { endpoint := inst.Address, accessKey := a, secretKey := sk }
        maxRetry w1 with ⟨b, w2⟩
      cases b with
      | false => simp [hr] at hok
      | true => exact retryLoop_true_probe E _ maxRetry w1 w2 hr

/-- Witness of C12: after `Init` of the test request, whose instance has `Host` and
`Address` `localhost:42042`, the published configuration carries that address and the keys
`minio` and `password`, and `Start` against a service that answers only at
`localhost:42042` succeeds on a probe of that address. -/
theorem Start_probes_published_endpoint_witness :
    ({ Origin := "mod/svc"
       RuntimeContext := some { Kind := "native" }
       Infos := [
         { Name := "minio"
           ConfigurationValues := [
             { Key := "endpoint", Value := "localhost:42042", Secret := false },
             { Key := "access-key", Value := "minio", Secret := true },
             { Key := "secret-key", Value := "password", Secret := true } ] } ] } :
      Configuration) ∈ testInitialised.RuntimeConfigurations ∧
    (Start addressOnlyE testInitialised testInitialisedWorld).1 = Response.ok () ∧
    ∃ j, j < 5 ∧
      addressOnlyE.ListBuckets
        { endpoint := "localhost:42042", accessKey := "minio", secretKey := "password" }
        { testInitialisedWorld with probes := testInitialisedWorld.probes + j } = none :=
  have h := Start_probes_published_endpoint addressOnlyE testLoaded testInitialised testRequest
    testWorld testInitialisedWorld testInitialised.RuntimeConfigurations "minio" "password"
    { Endpoint := some testEndpoint, Instances := [testInstance] } testInstance
    rfl rfl rfl rfl rfl rfl
  ⟨h.1 (by decide), by decide, h.2.2.2 testInitialisedWorld (by decide)⟩

end ServiceMinio
